import Mathlib

set_option maxRecDepth 100000

/-!
Shallow embedding of the message-relay bot in `src/bot.py`: the crisis
safety classifier, the LLM response generator with its fallback cascade,
the audio transcription bridge (temporary-file lifecycle, ffmpeg step,
transcription call), the speech-synthesis bridge with its truncation
policy, and the text/voice message handlers.  External services
(completion, transcription, synthesis, message delivery) are modelled as
oracles; each handler returns the list of observable effects it performs
together with a flag saying whether an exception escaped the handler.
-/

namespace Psy5

/-- Message text, modelled as the list of Unicode code points of a Python `str`. -/
abbrev Str := List Char

/-- Character-wise lowercasing as performed by Python `str.lower`, restricted to
the ASCII (`A`-`Z`) and Cyrillic (`А`-`Я`, `Ё`) ranges — the only cased
characters occurring in this program's lexicon and messages; every other
character is left unchanged, as Python leaves uncased characters unchanged. -/
def pyLower (c : Char) : Char :=
  if 65 ≤ c.toNat ∧ c.toNat ≤ 90 then Char.ofNat (c.toNat + 32)
  else if 0x410 ≤ c.toNat ∧ c.toNat ≤ 0x42F then Char.ofNat (c.toNat + 0x20)
  else if c.toNat = 0x401 then Char.ofNat 0x451
  else c

/-- Does `hay` start with `needle`?  Helper for the Python substring operator. -/
def beginsWith : Str → Str → Bool
  | [], _ => true
  | _ :: _, [] => false
  | a :: as, b :: bs => a == b && beginsWith as bs

/-- The Python substring test `needle in hay` on strings. -/
def substr_in (needle : Str) : Str → Bool
  | [] => needle.isEmpty
  | c :: t => beginsWith needle (c :: t) || substr_in needle t

/-- The fixed distress-indicator lexicon of `check_crisis_situation`
(`src/bot.py` lines 235-240). -/
def crisis_keywords : List Str :=
  ["суицид".data, "самоубийство".data, "умру".data, "покончить".data,
   "кризис".data, "хочу умереть".data, "наложу на себя руки".data,
   "самоповреждение".data, "режу себя".data, "больше не могу".data,
   "кончу жизнь".data, "сведу счеты".data, "лучше умереть".data]

/-- `check_crisis_situation` (`src/bot.py` lines 233-242): lowercase the text
and test whether any configured keyword occurs in it as a substring. -/
def check_crisis_situation (text : Str) : Bool :=
  crisis_keywords.any (fun keyword => substr_in keyword (text.map pyLower))

example : check_crisis_situation ("Я больше не могу".data) = true := by decide
example : check_crisis_situation ("У меня всё хорошо".data) = false := by decide
example : check_crisis_situation ("ХОЧУ УМЕРЕТЬ".data) = true := by decide

theorem beginsWith_iff (n h : Str) : beginsWith n h = true ↔ ∃ t, h = n ++ t := by
  induction n generalizing h with
  | nil => simp [beginsWith]
  | cons a as ih =>
    cases h with
    | nil => simp [beginsWith]
    | cons b bs =>
      simp only [beginsWith, Bool.and_eq_true, beq_iff_eq, ih, List.cons_append]
      constructor
      · rintro ⟨rfl, t, rfl⟩
        exact ⟨t, rfl⟩
      · rintro ⟨t, heq⟩
        injection heq with h1 h2
        exact ⟨h1.symm, t, h2⟩

theorem substr_in_iff (n h : Str) : substr_in n h = true ↔ ∃ s t, h = s ++ n ++ t := by
  induction h with
  | nil =>
    cases n with
    | nil => simp [substr_in, List.isEmpty]
    | cons a as => simp [substr_in, List.isEmpty]
  | cons c t ih =>
    simp only [substr_in, Bool.or_eq_true, beginsWith_iff, ih]
    constructor
    · rintro (⟨r, heq⟩ | ⟨s, r, rfl⟩)
      · exact ⟨[], r, by simpa using heq⟩
      · exact ⟨c :: s, r, rfl⟩
    · rintro ⟨s, r, heq⟩
      cases s with
      | nil => exact Or.inl ⟨r, by simpa using heq⟩
      | cons x xs =>
        injection heq with h1 h2
        exact Or.inr ⟨xs, r, h2⟩

/-- A request to the chat-completion service (`CLIENT.chat.completions.create`),
recording the fields the claims are about: model identifier, system instruction,
user text and output-token bound.  Sampling parameters (temperature 0.8,
top_p 0.9, penalties 0.1) are fixed float literals irrelevant to every claim
and are not modelled. -/
structure LLMRequest where
  model : Str
  system : Str
  user : Str
  max_tokens : Nat
deriving DecidableEq

/-- One observable effect of the pipeline: an external-service call or an
outbound Telegram interaction.  `sendText` is a delivered `reply_text`;
`sendFail` is a `reply_text` attempt on which the transport raised. -/
inductive Effect where
  | callComplete (req : LLMRequest)
  | callTranscribe
  | callSynthesize (text : Str)
  | sendText (s : Str)
  | sendFail (s : Str)
  | sendVoice (audio : List Nat) (caption : Str)
  | chatAction (a : Str)
  | log (m : Str)
deriving DecidableEq

/-- `LLM_MODEL` constant (`src/bot.py` line 34). -/
def LLM_MODEL : Str := "gpt-5-nano".data

/-- `AUDIO_MODEL` constant (`src/bot.py` line 35). -/
def AUDIO_MODEL : Str := "gpt-audio-mini".data

/-- The primary persona/system instruction of `get_llm_response`
(`src/bot.py` lines 41-64), transcribed exactly, including the trailing
space after the first sentence. -/
def system_prompt : Str :=
  ("\nТы - профессиональный психолог с 20-летним опытом работы. \nТвоя задача - оказывать качественную психологическую поддержку.\n\nТвой стиль общения:\n🎯 Поддерживающий и эмпатичный\n🎯 Профессиональный и этичный\n🎯 Конкретный и практичный\n🎯 Основанный на научных данных\n\nКлючевые принципы:\n1. Активное слушание и валидация чувств\n2. Безоценочное принятие\n3. Конфиденциальность и уважение\n4. Ориентация на решение\n\nВажные правила:\n❌ Не ставь медицинские диагнозы\n❌ Не заменяй очную консультацию\n🚨 В кризисных ситуациях направляй к специалистам\n💡 Сосредоточься на ресурсах и сильных сторонах клиента\n\nОтвечай на русском языке естественно и тепло.\n").data

/-- The shorter system instruction of the fallback attempt (`src/bot.py` line 87). -/
def fallback_system_prompt : Str := "Ты психолог. Отвечай поддерживающе.".data

/-- The fixed degraded-service apology returned when both completion attempts
fail (`src/bot.py` line 95). -/
def tech_error_text : Str :=
  "Благодарю вас за обращение. Сейчас возникла техническая ошибка. Пожалуйста, попробуйте позже.".data

/-- The primary completion request of `get_llm_response` (`src/bot.py` lines 65-76). -/
def primaryRequest (prompt : Str) : LLMRequest :=
  { model := LLM_MODEL, system := system_prompt, user := prompt, max_tokens := 800 }

/-- The fallback completion request of `get_llm_response` (`src/bot.py` lines 84-91). -/
def fallbackRequest (prompt : Str) : LLMRequest :=
  { model := "gpt-4o".data, system := fallback_system_prompt, user := prompt, max_tokens := 500 }

/-- `get_llm_response` (`src/bot.py` lines 38-95), with the completion service
as an oracle (`none` = the service call raised).  Returns the reply text and
the list of completion requests issued: the primary request, then on primary
failure one fallback request against `gpt-4o`, and if both fail the fixed
apology text.  Total by construction — the Python function catches every
exception of both attempts. -/
def get_llm_response (complete : LLMRequest → Option Str) (prompt : Str) :
    Str × List Effect :=
  match complete (primaryRequest prompt) with
  | some reply => (reply, [Effect.callComplete (primaryRequest prompt)])
  | none =>
    match complete (fallbackRequest prompt) with
    | some reply =>
        (reply, [Effect.callComplete (primaryRequest prompt),
                 Effect.callComplete (fallbackRequest prompt)])
    | none =>
        (tech_error_text, [Effect.callComplete (primaryRequest prompt),
                           Effect.callComplete (fallbackRequest prompt)])

/-- The truncation marker appended by `synthesize_speech` (`src/bot.py` line 149). -/
def ellipsis_marker : Str := "...".data

/-- The length-cap step of `synthesize_speech` (`src/bot.py` lines 148-149):
input longer than 1000 characters is cut to its first 1000 characters with the
marker appended; shorter input passes through unchanged. -/
def sent_for_synthesis (text : Str) : Str :=
  if text.length > 1000 then text.take 1000 ++ ellipsis_marker else text

/-- `synthesize_speech` (`src/bot.py` lines 145-162), with the synthesis
service as an oracle (`none` = the service call raised).  Submits the
(possibly truncated) text and returns the audio bytes, or empty bytes when
the service raised.  The trace records the text actually sent. -/
def synthesize_speech (svc : Str → Option (List Nat)) (text : Str) :
    List Nat × List Effect :=
  match svc (sent_for_synthesis text) with
  | some bytes => (bytes, [Effect.callSynthesize (sent_for_synthesis text)])
  | none => ([], [Effect.callSynthesize (sent_for_synthesis text)])

/-- Environment of one `transcribe_voice_message` run: whether the download
succeeds, the ffmpeg outcome (`none` = `TimeoutExpired` raised, `some rc` =
exit code `rc`), the transcription-service outcome (`none` = the call raised),
and whether each `os.unlink` in the `finally` block succeeds. -/
structure AudioEnv where
  downloadOk : Bool
  ffmpeg : Option Int
  svc : Option Str
  unlinkOggOk : Bool
  unlinkMp3Ok : Bool

/-- Which of the two temporary files exist on disk. -/
structure FS where
  oggExists : Bool
  mp3Exists : Bool
deriving DecidableEq

/-- Log line for a failed temp-file deletion (`src/bot.py` line 142). -/
def unlink_error_log : Str := "Error deleting temp file".data

/-- The `try`/`except` body of `transcribe_voice_message` (`src/bot.py`
lines 102-135): create the `.ogg` slot, download, create the `.mp3` slot, run
ffmpeg with a 30s timeout, and on exit code 0 submit the converted file to the
transcription service.  Every exception is caught and yields `""`.  Returns
the transcript (empty on any failure), the files existing when the `finally`
block starts, and the service-call trace. -/
def transcribe_body (env : AudioEnv) : Str × FS × List Effect :=
  if env.downloadOk then
    match env.ffmpeg with
    | none => ([], ⟨true, true⟩, [])
    | some rc =>
      if rc = 0 then
        match env.svc with
        | none => ([], ⟨true, true⟩, [Effect.callTranscribe])
        | some t => (t, ⟨true, true⟩, [Effect.callTranscribe])
      else ([], ⟨true, true⟩, [])
  else ([], ⟨true, false⟩, [])

/-- The `finally` block of `transcribe_voice_message` (`src/bot.py`
lines 136-142): for each of the two paths, if the file exists, attempt
`os.unlink`; a deletion error is logged and swallowed, leaving the file in
place and not stopping the other deletion. -/
def cleanup (env : AudioEnv) (fs : FS) : FS × List Effect :=
  let oggStep : Bool × List Effect :=
    if fs.oggExists then
      if env.unlinkOggOk then (false, []) else (true, [Effect.log unlink_error_log])
    else (false, [])
  let mp3Step : Bool × List Effect :=
    if fs.mp3Exists then
      if env.unlinkMp3Ok then (false, []) else (true, [Effect.log unlink_error_log])
    else (false, [])
  (⟨oggStep.1, mp3Step.1⟩, oggStep.2 ++ mp3Step.2)

/-- `transcribe_voice_message` (`src/bot.py` lines 99-142): the body followed
by the `finally` cleanup.  Returns the transcript (empty on failure), the
final filesystem state, and the effect trace. -/
def transcribe_voice_message (env : AudioEnv) : Str × FS × List Effect :=
  ((transcribe_body env).1,
   (cleanup env (transcribe_body env).2.1).1,
   (transcribe_body env).2.2 ++ (cleanup env (transcribe_body env).2.1).2)

/-- The fixed crisis-resources reply of the text pipeline (`src/bot.py`
lines 251-263), transcribed exactly, including the two trailing spaces after
the third line. -/
def crisis_text_response : Str :=
  ("\n🚨 *ЭКСТРЕННАЯ ПОМОЩЬ*\n\nПохоже, вы переживаете очень тяжёлые чувства.  \nВаша жизнь бесценна, и помощь доступна прямо сейчас.\n\n*Немедленно обратитесь:*\n📞 **Телефон доверия:** `8-800-2000-122` (круглосуточно)\n🚑 **Экстренная помощь:** `112`\n🏥 **Кризисная помощь:** `8-495-989-50-50`\n\n*Не оставайтесь в одиночестве.* Обращение за помощью - это проявление силы.\n").data

/-- The fixed crisis-resources reply of the voice pipeline (`src/bot.py`
lines 295-303), transcribed exactly. -/
def crisis_voice_response : Str :=
  ("\n🚨 *Услышал, что вам очень тяжело.*\n\nПожалуйста, немедленно обратитесь за помощью:\n📞 **8-800-2000-122** - круглосуточная помощь\n🚑 **112** - экстренная служба\n\nВаша жизнь важна!\n").data

/-- The generic apology of the text handler's `except` branch (`src/bot.py` line 274). -/
def error_apology : Str :=
  "⚠️ Произошла ошибка при обработке вашего сообщения. Пожалуйста, попробуйте позже.".data

/-- The "could not understand audio" reply of the voice pipeline (`src/bot.py` line 289). -/
def cant_understand_reply : Str :=
  "❌ Не удалось распознать голосовое сообщение. Попробуйте еще раз или напишите текстом.".data

/-- The degraded text-only reply built when synthesis returns empty bytes
(`src/bot.py` lines 314-317). -/
def degraded_reply (transcribed llm_response : Str) : Str :=
  "🎤 *Вы сказали:* ".data ++ transcribed ++ "\n\n💬 *Мой ответ:* ".data ++ llm_response

/-- The caption of the synthesized voice reply (`src/bot.py` line 322). -/
def voice_caption : Str := "💬 Ответ от ".data ++ LLM_MODEL

/-- Log line of the text handler's `except` branch (`src/bot.py` line 273). -/
def handler_error_log : Str := "Error in text handler".data

/-- `text_message_handler` (`src/bot.py` lines 245-274), with the completion
service and the delivery outcome of each `reply_text` as oracles
(`sendOk s = false` means sending `s` raises).  Returns the effect trace and
whether an exception escaped the handler to the application's error handler.
Crisis check first; on crisis, send the fixed crisis reply and stop.
Otherwise send a typing action, call `get_llm_response` (which never raises),
and send its reply; if that send raises, the `except` branch logs and sends
the generic apology; if the apology send raises too, the exception escapes. -/
def text_message_handler (complete : LLMRequest → Option Str)
    (sendOk : Str → Bool) (user_text : Str) : List Effect × Bool :=
  if check_crisis_situation user_text then
    if sendOk crisis_text_response then
      ([Effect.sendText crisis_text_response], false)
    else ([Effect.sendFail crisis_text_response], true)
  else
    let g := get_llm_response complete user_text
    let pre := Effect.chatAction ("typing".data) :: g.2
    if sendOk g.1 then (pre ++ [Effect.sendText g.1], false)
    else
      if sendOk error_apology then
        (pre ++ [Effect.sendFail g.1, Effect.log handler_error_log,
                 Effect.sendText error_apology], false)
      else
        (pre ++ [Effect.sendFail g.1, Effect.log handler_error_log,
                 Effect.sendFail error_apology], true)

/-- `voice_message_handler` (`src/bot.py` lines 277-324), composed from the
embedded `transcribe_voice_message`, `check_crisis_situation`,
`get_llm_response` and `synthesize_speech`, with delivery oracles as in the
text handler.  The handler has no `try`/`except`: a raising `reply_text`
escapes to the application's error handler.  `reply_voice` delivery is
modelled as succeeding. -/
def voice_message_handler (env : AudioEnv) (complete : LLMRequest → Option Str)
    (synthSvc : Str → Option (List Nat)) (sendOk : Str → Bool) :
    List Effect × Bool :=
  let transcribed_text := (transcribe_voice_message env).1
  let pre := Effect.chatAction ("record_audio".data) :: (transcribe_voice_message env).2.2
  if transcribed_text = [] then
    if sendOk cant_understand_reply then
      (pre ++ [Effect.sendText cant_understand_reply], false)
    else (pre ++ [Effect.sendFail cant_understand_reply], true)
  else if check_crisis_situation transcribed_text then
    if sendOk crisis_voice_response then
      (pre ++ [Effect.sendText crisis_voice_response], false)
    else (pre ++ [Effect.sendFail crisis_voice_response], true)
  else
    let g := get_llm_response complete transcribed_text
    let s := synthesize_speech synthSvc g.1
    let pre2 := pre ++ Effect.chatAction ("typing".data) :: g.2
        ++ Effect.chatAction ("record_audio".data) :: s.2
    if s.1 = [] then
      if sendOk (degraded_reply transcribed_text g.1) then
        (pre2 ++ [Effect.sendText (degraded_reply transcribed_text g.1)], false)
      else
        (pre2 ++ [Effect.sendFail (degraded_reply transcribed_text g.1)], true)
    else
      (pre2 ++ [Effect.sendVoice s.1 voice_caption], false)

/-- `error_handler` (`src/bot.py` lines 327-329), the handler registered with
`application.add_error_handler`: it logs the exception and does nothing else —
in particular it sends no message to the user. -/
def error_handler (e : Str) : List Effect := [Effect.log e]

/-- Is this effect a message the user sees (a delivered text or voice reply)? -/
def isUserVisible : Effect → Bool
  | Effect.sendText _ => true
  | Effect.sendVoice _ _ => true
  | _ => false

/-! ### Structural lemmas about the effect traces -/

theorem transcribe_body_trace (env : AudioEnv) :
    (transcribe_body env).2.2 = [] ∨
      (transcribe_body env).2.2 = [Effect.callTranscribe] := by
  rcases env with ⟨d, f, s, uo, um⟩
  cases d
  · simp [transcribe_body]
  · cases f with
    | none => simp [transcribe_body]
    | some rc =>
      by_cases hrc : rc = 0
      · cases s with
        | none => simp [transcribe_body, hrc]
        | some t => simp [transcribe_body, hrc]
      · simp [transcribe_body, hrc]

theorem cleanup_trace (env : AudioEnv) (fs : FS) :
    ∀ e ∈ (cleanup env fs).2, e = Effect.log unlink_error_log := by
  intro e he
  unfold cleanup at he
  dsimp only at he
  split_ifs at he <;> simp_all

theorem transcribe_trace_mem (env : AudioEnv) (e : Effect)
    (h : e ∈ (transcribe_voice_message env).2.2) :
    e = Effect.callTranscribe ∨ e = Effect.log unlink_error_log := by
  unfold transcribe_voice_message at h
  dsimp only at h
  rw [List.mem_append] at h
  rcases h with h | h
  · rcases transcribe_body_trace env with hb | hb <;> rw [hb] at h <;> simp_all
  · exact Or.inr (cleanup_trace env _ e h)

theorem callComplete_not_in_transcribe (env : AudioEnv) (req : LLMRequest) :
    Effect.callComplete req ∉ (transcribe_voice_message env).2.2 := by
  intro hmem
  rcases transcribe_trace_mem env _ hmem with h | h <;> simp at h

theorem sendVoice_not_in_transcribe (env : AudioEnv) (a : List Nat) (c : Str) :
    Effect.sendVoice a c ∉ (transcribe_voice_message env).2.2 := by
  intro hmem
  rcases transcribe_trace_mem env _ hmem with h | h <;> simp at h

theorem get_llm_trace_mem (complete : LLMRequest → Option Str) (prompt : Str)
    (e : Effect) (h : e ∈ (get_llm_response complete prompt).2) :
    ∃ req, e = Effect.callComplete req := by
  unfold get_llm_response at h
  rcases h1 : complete (primaryRequest prompt) with _ | r
  · rw [h1] at h
    rcases h2 : complete (fallbackRequest prompt) with _ | r2 <;> rw [h2] at h <;>
      simp at h <;> rcases h with h | h <;> exact ⟨_, h⟩
  · rw [h1] at h
    simp at h
    exact ⟨_, h⟩

theorem synthesize_trace (svc : Str → Option (List Nat)) (text : Str) :
    (synthesize_speech svc text).2 = [Effect.callSynthesize (sent_for_synthesis text)] := by
  unfold synthesize_speech
  rcases svc (sent_for_synthesis text) with _ | bytes <;> rfl

/-! ### Claim theorems -/

/-- C2: `check_crisis_situation` returns `true` if and only if the lowercased
text contains at least one of the configured distress-indicator phrases as a
substring. -/
theorem C2_classifier_iff (t : Str) :
    check_crisis_situation t = true ↔
      ∃ kw ∈ crisis_keywords, ∃ s r, t.map pyLower = s ++ kw ++ r := by
  unfold check_crisis_situation
  rw [List.any_eq_true]
  simp only [substr_in_iff]

/-- Witness for C2: the classifier fires on a phrase written in mixed case,
via the theorem, and the match is exhibited concretely. -/
theorem C2_classifier_iff_witness :
    check_crisis_situation ("Я больше не могу".data) = true :=
  (C2_classifier_iff ("Я больше не могу".data)).mpr
    ⟨"больше не могу".data, by decide, "я ".data, [], by decide⟩

/-- C5: the response generator is total (it returns a string for every oracle
behaviour), issues the primary request and at most one fallback request —
the fallback using a strictly shorter system instruction and a strictly
smaller output-token bound — and when both attempts fail it returns the fixed
degraded-service apology. -/
theorem C5_generator_fallback (complete : LLMRequest → Option Str) (prompt : Str) :
    ((get_llm_response complete prompt).2 = [Effect.callComplete (primaryRequest prompt)] ∨
     (get_llm_response complete prompt).2 =
       [Effect.callComplete (primaryRequest prompt),
        Effect.callComplete (fallbackRequest prompt)]) ∧
    (fallbackRequest prompt).system.length < (primaryRequest prompt).system.length ∧
    (fallbackRequest prompt).max_tokens < (primaryRequest prompt).max_tokens ∧
    (complete (primaryRequest prompt) = none → complete (fallbackRequest prompt) = none →
      (get_llm_response complete prompt).1 = tech_error_text) := by
  refine ⟨?_, ?_, ?_, ?_⟩
  · unfold get_llm_response
    rcases h1 : complete (primaryRequest prompt) with _ | r
    · rcases h2 : complete (fallbackRequest prompt) with _ | r2 <;> simp
    · simp
  · show fallback_system_prompt.length < system_prompt.length
    decide
  · show (500 : Nat) < 800
    decide
  · intro h1 h2
    simp [get_llm_response, h1, h2]

/-- Witness for C5: with a completion service that always fails, the caller
receives exactly the fixed degraded-service apology. -/
theorem C5_generator_fallback_witness :
    (get_llm_response (fun _ => none) ("тест".data)).1 = tech_error_text :=
  (C5_generator_fallback (fun _ => none) ("тест".data)).2.2.2 rfl rfl

/-- C7: the text submitted to the synthesis service is the first 1000
characters of the input followed by the `"..."` marker when the input is
longer than 1000 characters, and the unmodified input otherwise. -/
theorem C7_truncation (svc : Str → Option (List Nat)) (text : Str) :
    (text.length > 1000 →
      (synthesize_speech svc text).2 =
        [Effect.callSynthesize (text.take 1000 ++ ellipsis_marker)]) ∧
    (text.length ≤ 1000 →
      (synthesize_speech svc text).2 = [Effect.callSynthesize text]) := by
  constructor
  · intro h
    rw [synthesize_trace, sent_for_synthesis, if_pos h]
  · intro h
    rw [synthesize_trace, sent_for_synthesis, if_neg (by omega)]

/-- Witness for C7: a 1001-character input is sent truncated with the marker;
a short input is sent unmodified. -/
theorem C7_truncation_witness :
    (synthesize_speech (fun _ => none) (List.replicate 1001 'a')).2 =
      [Effect.callSynthesize ((List.replicate 1001 'a').take 1000 ++ ellipsis_marker)] ∧
    (synthesize_speech (fun _ => none) ("привет".data)).2 =
      [Effect.callSynthesize ("привет".data)] :=
  ⟨(C7_truncation (fun _ => none) (List.replicate 1001 'a')).1 (by simp),
   (C7_truncation (fun _ => none) ("привет".data)).2 (by decide)⟩

/-- C8: when the codec conversion raises its timeout or exits with a nonzero
code, `transcribe_voice_message` returns the empty (failed) transcript and
the transcription service is never called. -/
theorem C8_codec_failure (env : AudioEnv)
    (h : env.ffmpeg = none ∨ ∃ rc, env.ffmpeg = some rc ∧ rc ≠ 0) :
    (transcribe_voice_message env).1 = [] ∧
      Effect.callTranscribe ∉ (transcribe_voice_message env).2.2 := by
  have hbody : (transcribe_body env).1 = [] ∧ (transcribe_body env).2.2 = [] := by
    rcases env with ⟨d, f, s, uo, um⟩
    rcases h with h | ⟨rc, hf, hrc⟩ <;> cases d
    · simp [transcribe_body]
    · simp only at h
      simp [transcribe_body, h]
    · simp [transcribe_body]
    · simp only at hf
      simp [transcribe_body, hf, hrc]
  constructor
  · exact hbody.1
  · intro hmem
    unfold transcribe_voice_message at hmem
    dsimp only at hmem
    rw [List.mem_append, hbody.2] at hmem
    rcases hmem with hmem | hmem
    · simp at hmem
    · have := cleanup_trace env _ _ hmem
      simp at this

/-- Witness for C8: with exit code 1 the transcript is empty and no
transcription call appears in the trace. -/
theorem C8_codec_failure_witness :
    (transcribe_voice_message ⟨true, some 1, none, true, true⟩).1 = [] ∧
      Effect.callTranscribe ∉
        (transcribe_voice_message ⟨true, some 1, none, true, true⟩).2.2 :=
  C8_codec_failure ⟨true, some 1, none, true, true⟩ (Or.inr ⟨1, rfl, by decide⟩)

/-- C3: when transcription yields the empty (failed) transcript, the voice
pipeline sends the fixed "could not understand audio" reply and the
generation service is invoked zero times. -/
theorem C3_empty_transcript (env : AudioEnv) (complete : LLMRequest → Option Str)
    (synthSvc : Str → Option (List Nat)) (sendOk : Str → Bool)
    (h : (transcribe_voice_message env).1 = []) :
    (∀ req, Effect.callComplete req ∉ (voice_message_handler env complete synthSvc sendOk).1) ∧
    (sendOk cant_understand_reply = true →
      Effect.sendText cant_understand_reply ∈
        (voice_message_handler env complete synthSvc sendOk).1) := by
  constructor
  · intro req hmem
    simp only [voice_message_handler, h, if_true] at hmem
    split at hmem <;> simp at hmem <;>
      exact callComplete_not_in_transcribe env req hmem
  · intro hs
    simp only [voice_message_handler, h, if_true]
    rw [if_pos hs]
    simp

/-- Witness for C3: a failed download yields the empty transcript; the
"could not understand" reply is sent. -/
theorem C3_empty_transcript_witness :
    Effect.sendText cant_understand_reply ∈
      (voice_message_handler ⟨false, none, none, true, true⟩ (fun _ => none)
        (fun _ => none) (fun _ => true)).1 :=
  (C3_empty_transcript ⟨false, none, none, true, true⟩ (fun _ => none)
    (fun _ => none) (fun _ => true) rfl).2 rfl

/-- C4: when generation succeeded but synthesis yields empty bytes, the voice
pipeline sends the plain-text degraded reply containing both the transcript
and the generated reply, and sends no voice message. -/
theorem C4_synthesis_degraded (env : AudioEnv) (complete : LLMRequest → Option Str)
    (synthSvc : Str → Option (List Nat)) (sendOk : Str → Bool) (r : Str)
    (hne : (transcribe_voice_message env).1 ≠ [])
    (hcr : check_crisis_situation (transcribe_voice_message env).1 = false)
    (hgen : complete (primaryRequest (transcribe_voice_message env).1) = some r)
    (hsyn : (synthesize_speech synthSvc r).1 = []) :
    (sendOk (degraded_reply (transcribe_voice_message env).1 r) = true →
      Effect.sendText (degraded_reply (transcribe_voice_message env).1 r) ∈
        (voice_message_handler env complete synthSvc sendOk).1) ∧
    (∀ a c, Effect.sendVoice a c ∉ (voice_message_handler env complete synthSvc sendOk).1) := by
  have hg : get_llm_response complete (transcribe_voice_message env).1 =
      (r, [Effect.callComplete (primaryRequest (transcribe_voice_message env).1)]) := by
    unfold get_llm_response
    rw [hgen]
  constructor
  · intro hs
    simp only [voice_message_handler, hg]
    rw [if_neg hne, hcr]
    simp only [Bool.false_eq_true, if_false]
    rw [if_pos hsyn, if_pos hs]
    simp
  · intro a c hmem
    simp only [voice_message_handler, hg] at hmem
    rw [if_neg hne, hcr] at hmem
    simp only [Bool.false_eq_true, if_false] at hmem
    rw [if_pos hsyn, synthesize_trace] at hmem
    split at hmem <;> simp at hmem <;>
      exact sendVoice_not_in_transcribe env a c hmem

/-- Witness for C4: transcript recognized, generation succeeds, synthesis
raises; the degraded text reply is sent. -/
theorem C4_synthesis_degraded_witness :
    Effect.sendText (degraded_reply ("привет".data) ("ответ".data)) ∈
      (voice_message_handler ⟨true, some 0, some ("привет".data), true, true⟩
        (fun _ => some ("ответ".data)) (fun _ => none) (fun _ => true)).1 :=
  (C4_synthesis_degraded ⟨true, some 0, some ("привет".data), true, true⟩
    (fun _ => some ("ответ".data)) (fun _ => none) (fun _ => true) ("ответ".data)
    (by decide) (by decide) rfl rfl).1 rfl

/-- C1: for both pipelines, when the classifier fires on the relevant text
(raw text for the text pipeline, transcript for the voice pipeline), the
fixed crisis-resources reply is sent, the pipeline stops there, and the
generation service is invoked zero times. -/
theorem C1_crisis_gate (complete : LLMRequest → Option Str) (sendOk : Str → Bool)
    (user_text : Str) (env : AudioEnv) (synthSvc : Str → Option (List Nat))
    (htext : check_crisis_situation user_text = true)
    (hvne : (transcribe_voice_message env).1 ≠ [])
    (hvoice : check_crisis_situation (transcribe_voice_message env).1 = true) :
    (∀ req, Effect.callComplete req ∉ (text_message_handler complete sendOk user_text).1) ∧
    (sendOk crisis_text_response = true →
      (text_message_handler complete sendOk user_text).1 =
        [Effect.sendText crisis_text_response]) ∧
    (∀ req, Effect.callComplete req ∉ (voice_message_handler env complete synthSvc sendOk).1) ∧
    (sendOk crisis_voice_response = true →
      Effect.sendText crisis_voice_response ∈
        (voice_message_handler env complete synthSvc sendOk).1) := by
  refine ⟨?_, ?_, ?_, ?_⟩
  · intro req hmem
    simp only [text_message_handler, htext, if_true] at hmem
    split at hmem <;> simp at hmem
  · intro hs
    simp only [text_message_handler, htext, if_true]
    rw [if_pos hs]
  · intro req hmem
    simp only [voice_message_handler] at hmem
    rw [if_neg hvne, hvoice] at hmem
    simp only [if_true] at hmem
    split at hmem <;> simp at hmem <;>
      exact callComplete_not_in_transcribe env req hmem
  · intro hs
    simp only [voice_message_handler]
    rw [if_neg hvne, hvoice]
    simp only [if_true]
    rw [if_pos hs]
    simp

/-- Witness for C1: the crisis phrase "хочу умереть", as raw text and as a
voice transcript, yields the respective fixed crisis replies. -/
theorem C1_crisis_gate_witness :
    (text_message_handler (fun _ => none) (fun _ => true) ("хочу умереть".data)).1 =
      [Effect.sendText crisis_text_response] ∧
    Effect.sendText crisis_voice_response ∈
      (voice_message_handler ⟨true, some 0, some ("хочу умереть".data), true, true⟩
        (fun _ => none) (fun _ => none) (fun _ => true)).1 := by
  have h := C1_crisis_gate (fun _ => none) (fun _ => true) ("хочу умереть".data)
    ⟨true, some 0, some ("хочу умереть".data), true, true⟩ (fun _ => none)
    (by decide) (by decide) (by decide)
  exact ⟨h.2.1 rfl, h.2.2.2 rfl⟩

/-- C6: whenever the `finally`-block deletions succeed, both temporary files
are absent after `transcribe_voice_message` returns, on every exit path; a
failing deletion is logged and swallowed; and the returned transcript never
depends on the deletion outcomes. -/
theorem C6_temp_files (env : AudioEnv) :
    (env.unlinkOggOk = true → env.unlinkMp3Ok = true →
      (transcribe_voice_message env).2.1 = ⟨false, false⟩) ∧
    (env.unlinkOggOk = false →
      Effect.log unlink_error_log ∈ (transcribe_voice_message env).2.2) ∧
    (env.unlinkMp3Ok = false → env.downloadOk = true →
      Effect.log unlink_error_log ∈ (transcribe_voice_message env).2.2) ∧
    ((transcribe_voice_message env).1 =
      (transcribe_voice_message ⟨env.downloadOk, env.ffmpeg, env.svc, true, true⟩).1) := by
  have hfs : (transcribe_body env).2.1 = ⟨true, env.downloadOk⟩ := by
    rcases env with ⟨d, f, s, uo, um⟩
    cases d
    · simp [transcribe_body]
    · cases f with
      | none => simp [transcribe_body]
      | some rc =>
        by_cases hrc : rc = 0
        · cases s <;> simp [transcribe_body, hrc]
        · simp [transcribe_body, hrc]
  refine ⟨?_, ?_, ?_, ?_⟩
  · intro ho hm
    unfold transcribe_voice_message
    rw [hfs]
    cases hd : env.downloadOk <;> simp [cleanup, ho, hm, hd]
  · intro ho
    unfold transcribe_voice_message
    rw [List.mem_append]
    right
    rw [hfs]
    simp [cleanup, ho]
  · intro hm hd
    unfold transcribe_voice_message
    rw [List.mem_append]
    right
    rw [hfs]
    simp [cleanup, hm, hd]
  · rcases env with ⟨d, f, s, uo, um⟩
    rfl

/-- Witness for C6: with successful deletions both files are gone after a
failed-download run, and a failed `.ogg` deletion shows up as a swallowed log
entry on a successful run. -/
theorem C6_temp_files_witness :
    (transcribe_voice_message ⟨false, none, none, true, true⟩).2.1 = ⟨false, false⟩ ∧
    Effect.log unlink_error_log ∈
      (transcribe_voice_message ⟨true, some 0, none, false, true⟩).2.2 :=
  ⟨(C6_temp_files ⟨false, none, none, true, true⟩).1 rfl rfl,
   (C6_temp_files ⟨true, some 0, none, false, true⟩).2.1 rfl⟩

/-- C9 counterexample: a concrete voice interaction in which the reply raises.
The exception escapes the handler to the outermost boundary (the registered
`error_handler`), which only logs — the combined run produces no user-visible
message at all, refuting the claim that the outermost boundary converts the
exception into a user-visible apology and that the user is never left without
a reply. -/
theorem C9_no_apology_counterexample :
    (voice_message_handler ⟨false, none, none, true, true⟩ (fun _ => none)
        (fun _ => none) (fun _ => false)).2 = true ∧
    ((voice_message_handler ⟨false, none, none, true, true⟩ (fun _ => none)
          (fun _ => none) (fun _ => false)).1 ++
        error_handler ("Exception".data)).filter isUserVisible = [] := by
  decide

/-- C9 amended: an unclassified exception reaching the outermost handling
boundary is caught and logged only — no user-visible message is sent from
there; the generic apology is produced solely by the text handler's own
`except` branch, which converts a failure while sending the generated reply
into the apology without escalating. -/
theorem C9_outer_boundary_logs_only (e : Str) (complete : LLMRequest → Option Str)
    (sendOk : Str → Bool) (user_text : Str)
    (hcr : check_crisis_situation user_text = false)
    (hfail : sendOk (get_llm_response complete user_text).1 = false)
    (hap : sendOk error_apology = true) :
    error_handler e = [Effect.log e] ∧
    Effect.sendText error_apology ∈ (text_message_handler complete sendOk user_text).1 ∧
    (text_message_handler complete sendOk user_text).2 = false := by
  refine ⟨rfl, ?_, ?_⟩ <;>
    simp [text_message_handler, hcr, hfail, hap]

/-- Witness for the amended C9: a delivery oracle that only accepts the
apology text exercises the text handler's `except` branch. -/
theorem C9_outer_boundary_logs_only_witness :
    error_handler ("Exception".data) = [Effect.log ("Exception".data)] ∧
    Effect.sendText error_apology ∈
      (text_message_handler (fun _ => none) (fun s => s == error_apology)
        ("привет".data)).1 ∧
    (text_message_handler (fun _ => none) (fun s => s == error_apology)
        ("привет".data)).2 = false :=
  C9_outer_boundary_logs_only ("Exception".data) (fun _ => none)
    (fun s => s == error_apology) ("привет".data) (by decide) (by decide) (by decide)

/-- C10: the fixed crisis reply of the voice pipeline differs from the fixed
crisis reply of the text pipeline: for the same crisis-triggering text, the
text handler sends one string and the voice handler sends a different one. -/
theorem C10_distinct_crisis_replies :
    crisis_text_response ≠ crisis_voice_response ∧
    (text_message_handler (fun _ => none) (fun _ => true) ("хочу умереть".data)).1 =
      [Effect.sendText crisis_text_response] ∧
    Effect.sendText crisis_voice_response ∈
      (voice_message_handler ⟨true, some 0, some ("хочу умереть".data), true, true⟩
        (fun _ => none) (fun _ => none) (fun _ => true)).1 := by
  decide

end Psy5
